import Mathlib

/-!
Verification development for a thin Go wrapper around the yt-dlp binary
(package `ytdlp`, single file `main.go`).

Shallow embedding conventions:
* External effects (process launch, HTTP, filesystem) are passed in as
  oracle functions, so each operation is a pure function of the code's
  inputs plus the external world's responses.
* An operation that launches subprocesses also returns the list of
  `Invocation`s it performed, so "no process was invoked" is statable.
* Go byte strings that are scanned for literal ASCII prefixes (stderr
  lines) are embedded as `List Char`; other strings stay `String`.
* Machine-level `panic` (index out of range) is a distinguished outcome
  `RunOutcome.panics`, separate from returned errors.
* `encoding/json` decoding is embedded at the granularity of JSON values:
  a captured output carries the sequence of JSON values that parse from
  it (`ProcOut.jsonVals`), and `json.Decoder.Decode` consumes the first
  value of that sequence.  JSON numbers are carried as `Int`; fractional
  numbers (which also fail to unmarshal into `uint`) are outside the model.
-/

/-- One spawn of the external binary: the binary path and the argument
vector handed to `exec.Command`. -/
structure Invocation where
  bin : String
  args : List String
deriving DecidableEq, Repr

/-- JSON values, with numbers restricted to integers (sufficient for the
claims; a fractional number fails to unmarshal into `uint` just as a
negative one does). -/
inductive Json where
  | null
  | bool (b : Bool)
  | num (n : Int)
  | str (s : String)
  | arr (xs : List Json)
  | obj (kvs : List (String × Json))

/-- Result of running a subprocess to completion with `CombinedOutput`:
the combined stdout+stderr text, the JSON-value stream that parses from
that text (used by the decoder model), and the error (`none` on a zero
exit). -/
structure ProcOut where
  text : String
  jsonVals : List Json
  err : Option String

/-- `YTDLPVideoInfo` from `main.go`: the Go field `Duration uint` becomes
`Nat`. -/
structure YTDLPVideoInfo where
  Id : String
  Title : String
  Thumbnail : String
  Duration : Nat
deriving DecidableEq, Repr

/-- Assign one JSON object member to the struct, following Go
`encoding/json` semantics for this struct: keys are matched against the
lowercase field tags (Go matches exactly, then case-insensitively; all
tags here are lowercase, so matching on the lowercased key is
equivalent), `null` leaves a field untouched, a wrong-typed value is an
error, a negative number cannot be stored in the `uint` field, and
unknown keys are ignored. -/
def setField (key : String) (v : Json) (vi : YTDLPVideoInfo) :
    Except String YTDLPVideoInfo :=
  if key = "id" then
    match v with
    | .str s => .ok { vi with Id := s }
    | .null => .ok vi
    | _ => .error "cannot unmarshal into field id of type string"
  else if key = "title" then
    match v with
    | .str s => .ok { vi with Title := s }
    | .null => .ok vi
    | _ => .error "cannot unmarshal into field title of type string"
  else if key = "thumbnail" then
    match v with
    | .str s => .ok { vi with Thumbnail := s }
    | .null => .ok vi
    | _ => .error "cannot unmarshal into field thumbnail of type string"
  else if key = "duration" then
    match v with
    | .num n =>
      if n < 0 then .error "cannot unmarshal negative number into field duration of type uint"
      else .ok { vi with Duration := n.toNat }
    | .null => .ok vi
    | _ => .error "cannot unmarshal into field duration of type uint"
  else .ok vi

/-- ASCII lower-casing of one character (Go's field-name folding is an
ASCII case fold for these all-ASCII tags). -/
def lowerChar (c : Char) : Char :=
  if 'A' ≤ c && c ≤ 'Z' then Char.ofNat (c.toNat + 32) else c

/-- ASCII lower-casing of a JSON object key before matching it against
the (all-lowercase) field tags. -/
def lowerKey (s : String) : String := ⟨s.data.map lowerChar⟩

/-- Process the members of a JSON object in order, threading the struct
(later duplicates win, and the first type error aborts). -/
def applyFields : List (String × Json) → YTDLPVideoInfo →
    Except String YTDLPVideoInfo
  | [], vi => .ok vi
  | (k, v) :: rest, vi =>
    match setField (lowerKey k) v vi with
    | .error e => .error e
    | .ok vi2 => applyFields rest vi2

/-- Unmarshal one JSON value into a zero-initialized `YTDLPVideoInfo`
(Go decodes into `new(YTDLPVideoInfo)`): an object assigns its members,
`null` is a no-op on the pointer target, anything else is a type error. -/
def unmarshalVideoInfo : Json → Except String YTDLPVideoInfo
  | .obj kvs => applyFields kvs ⟨"", "", "", 0⟩
  | .null => .ok ⟨"", "", "", 0⟩
  | _ => .error "cannot unmarshal into YTDLPVideoInfo"

/-- `decodeVideoInfo` from `main.go`: `json.NewDecoder(...).Decode(vi)`
reads exactly the first JSON value of the stream (empty input is the
`EOF` error) and never looks at what follows. -/
def decodeVideoInfo : List Json → Except String YTDLPVideoInfo
  | [] => .error "EOF"
  | v :: _ => unmarshalVideoInfo v

/-- `Execute` from `main.go`: reject an empty url before any invocation;
otherwise run `[url] ++ args` (from `slices.Insert(args, 0, url)`) and
wrap a non-zero exit together with the combined output. The second
component is the list of invocations performed. -/
def Execute (run : Invocation → ProcOut) (bPath url : String)
    (args : List String) : Except String Unit × List Invocation :=
  if url = "" then (.error "empty url", [])
  else
    let inv : Invocation := ⟨bPath, url :: args⟩
    let r := run inv
    (match r.err with
     | some e => .error ("yt-dlp error: \n" ++ e ++ " | " ++ r.text)
     | none => .ok (),
     [inv])

/-- `DumpStdout` from `main.go`: same empty-url validation, but the
argument vector is `append(args, url)` — the url goes LAST — and the
captured text is returned alongside the raw run error. -/
def DumpStdout (run : Invocation → ProcOut) (bPath url : String)
    (args : List String) : (String × Option String) × List Invocation :=
  if url = "" then (("", some "empty url"), [])
  else
    let inv : Invocation := ⟨bPath, args ++ [url]⟩
    let r := run inv
    ((r.text, r.err), [inv])

/-- `GetVideoInfo` from `main.go`: no emptiness validation on the query;
always invokes the binary with the fixed metadata argument set, then
decodes the captured stdout's first JSON value, wrapping decode errors
distinctly from execution errors. -/
def GetVideoInfo (run : Invocation → ProcOut) (bPath query : String) :
    Except String YTDLPVideoInfo × List Invocation :=
  let inv : Invocation :=
    ⟨bPath, ["ytsearch:" ++ query, "-s", "-O", "%(.\x7bid,title,thumbnail,duration\x7d)#j"]⟩
  let r := run inv
  (match r.err with
   | some e => .error ("yt-dlp error: \n" ++ e ++ " | " ++ r.text)
   | none =>
     match decodeVideoInfo r.jsonVals with
     | .error de => .error ("failed to decode video info: " ++ de)
     | .ok vi => .ok vi,
   [inv])

/-- The literal prefix `"[download]"` scanned for on stderr, as the byte
(char) sequence the Go code compares against. -/
def dlMark : List Char := "[download]".toList

/-- The literal prefix `"ERROR: "` scanned for on stderr. -/
def errMark : List Char := "ERROR: ".toList

/-- The stderr-scanning goroutine of `ExecuteStream` (lines 130-145 of
`main.go`), as a function of the sequence of stderr lines.  First
component: the value sent on `ytErrCh` (`none` for nil, `some msg` for
`errors.New(line[len(errorPrefix):])`).  Second component: the stderr
lines the goroutine leaves unread when it finishes.  A `[download]`
line breaks the loop, sends nil, and the trailing `io.Copy(io.Discard,
stderrRd)` drains the rest; end-of-stream likewise sends nil and drains;
an `ERROR: ` line sends the stripped message and RETURNS, skipping the
drain, so the rest of stderr stays unread. -/
def stderrScan : List (List Char) → Option (List Char) × List (List Char)
  | [] => (none, [])
  | line :: rest =>
    if dlMark.isPrefixOf line then (none, [])
    else if errMark.isPrefixOf line then (some (line.drop errMark.length), rest)
    else stderrScan rest

/-- The handshake verdict the caller receives from `<-ytErrCh`. -/
def handshake (lines : List (List Char)) : Option (List Char) :=
  (stderrScan lines).1

/-- Argument vector built by `ExecuteStream`:
`slices.Insert(args, 0, url)` then `append(args, "-o", "-", "--newline")`. -/
def streamArgs (url : String) (args : List String) : List String :=
  (url :: args) ++ ["-o", "-", "--newline"]

/-- Failure modes of a streaming launch: the process could not be
started (`cmd.Start` error), or the tool reported an `ERROR: ` line
during the handshake. -/
inductive StreamErr where
  | startFailed (e : String)
  | toolError (msg : List Char)
deriving DecidableEq

/-- Outcome of `ExecuteStream`: the invocations attempted, the stdout
read end handed to the caller (`some ()` models the non-nil
`io.PipeReader`, `none` the nil reader of the start-failure return), and
the error value. -/
structure StreamLaunch where
  attempted : List Invocation
  stdoutRd : Option Unit
  err : Option StreamErr
deriving DecidableEq

/-- `ExecuteStream` from `main.go`: build the argument vector with NO
emptiness validation of `url`, attempt to start the process (the `start`
oracle returns `some e` when `cmd.Start` fails), and on success block on
the handshake; the pipe read end `stdoutRd` is returned on both
handshake branches. -/
def ExecuteStream (start : Invocation → Option String)
    (stderrLines : List (List Char)) (bPath url : String)
    (args : List String) : StreamLaunch :=
  let inv : Invocation := ⟨bPath, streamArgs url args⟩
  let outcome : Option Unit × Option StreamErr :=
    match start inv with
    | some e => (none, some (.startFailed e))
    | none => (some (), (handshake stderrLines).map .toolError)
  { attempted := [inv], stdoutRd := outcome.1, err := outcome.2 }

/-- `GHDownloadData` from `main.go`: the one release-descriptor field
consumed (`tag_name`). -/
structure GHDownloadData where
  TagName : String
deriving DecidableEq, Repr

/-- Outcome of running a Go function that may panic at runtime
(index out of range) instead of returning. -/
inductive RunOutcome (α : Type) where
  | panics
  | returns (a : α)
deriving DecidableEq

/-- `DownloadLatestFromGithub` from `main.go`: `releases` is the outcome
of `GetGithubReleases(1, 1)` and `download` the behavior of
`DownloadFromGithub`.  The source evaluates `r[0].TagName` with no
length check, so an empty release list is an index-out-of-range panic
(`RunOutcome.panics`), not a returned error. -/
def DownloadLatestFromGithub (releases : Except String (List GHDownloadData))
    (download : String → String → Except String Unit) (path : String) :
    RunOutcome (Except String Unit) :=
  match releases with
  | .error e => .returns (.error e)
  | .ok r =>
    match r.head? with
    | none => .panics
    | some d0 =>
      match download path d0.TagName with
      | .error e =>
        .returns (.error ("failed to download bin from GitHub releases: " ++ e))
      | .ok _ => .returns (.ok ())

/-- `setExecPermission` from `main.go`, at the level of permission bits:
the mode passed to `os.Chmod` is the stat-read mode OR-ed with `0111`. -/
def setExecPermission (m : Nat) : Nat := m ||| 0o111

/-- A stderr line that carries one of the two handshake markers. -/
def isMarkerLine (l : List Char) : Bool :=
  dlMark.isPrefixOf l || errMark.isPrefixOf l

/-- A well-formed single metadata object, as yt-dlp prints for
`-O "%(.\x7bid,title,thumbnail,duration\x7d)#j"`. -/
def vGood : Json :=
  Json.obj [("id", .str "x"), ("title", .str "t"),
    ("thumbnail", .str "u"), ("duration", .num 42)]

/-- A run oracle whose subprocess exits zero and prints `vGood`. -/
def runGood : Invocation → ProcOut := fun _ =>
  { text := "\x7b\"id\":\"x\",\"title\":\"t\",\"thumbnail\":\"u\",\"duration\":42\x7d"
    jsonVals := [vGood]
    err := none }

/-- A start oracle for which `cmd.Start` always succeeds. -/
def startOk : Invocation → Option String := fun _ => none

theorem errMark_not_dlMark (l : List Char) (h : errMark.isPrefixOf l = true) :
    dlMark.isPrefixOf l = false := by
  rw [← Bool.not_eq_true]
  rw [List.isPrefixOf_iff_prefix] at h ⊢
  obtain ⟨t, rfl⟩ := h
  intro hc
  obtain ⟨u, hu⟩ := hc
  have h1 : errMark = ['E', 'R', 'R', 'O', 'R', ':', ' '] := rfl
  have h2 : dlMark = ['[', 'd', 'o', 'w', 'n', 'l', 'o', 'a', 'd', ']'] := rfl
  rw [h1, h2] at hu
  simp at hu

theorem stderrScan_skip (pre suffix : List (List Char))
    (h : ∀ l ∈ pre, isMarkerLine l = false) :
    stderrScan (pre ++ suffix) = stderrScan suffix := by
  induction pre with
  | nil => rfl
  | cons l pre ih =>
    have hl : isMarkerLine l = false := h l (List.mem_cons_self l pre)
    have hdl : dlMark.isPrefixOf l = false :=
      (Bool.or_eq_false_iff.mp hl).1
    have herr : errMark.isPrefixOf l = false :=
      (Bool.or_eq_false_iff.mp hl).2
    simp only [List.cons_append, stderrScan, hdl, herr, Bool.false_eq_true,
      if_false]
    exact ih fun x hx => h x (List.mem_cons_of_mem l hx)

theorem stderrScan_dl (line : List Char) (rest : List (List Char))
    (h : dlMark.isPrefixOf line = true) :
    stderrScan (line :: rest) = (none, []) := by
  simp only [stderrScan, h, if_true]

theorem stderrScan_err (line : List Char) (rest : List (List Char))
    (h : errMark.isPrefixOf line = true) :
    stderrScan (line :: rest) = (some (line.drop errMark.length), rest) := by
  simp only [stderrScan, errMark_not_dlMark line h, h, Bool.false_eq_true,
    if_false, if_true]

theorem stderrScan_clean (lines : List (List Char))
    (h : ∀ l ∈ lines, isMarkerLine l = false) :
    stderrScan lines = (none, []) := by
  have := stderrScan_skip lines [] h
  simpa using this

/-- C3: the streaming-launch handshake resolves according to the first
marker line on stderr: a first-marker line with the `[download]` prefix
yields a nil error; a first-marker line with the `ERROR: ` prefix yields
an error equal to that line with the prefix stripped; end-of-stream with
no marker on any line yields a nil error (fail-open); non-marker lines
before the first marker are skipped. -/
theorem c3_handshake_first_marker :
    (∀ (pre : List (List Char)) (line : List Char) (rest : List (List Char)),
      (∀ l ∈ pre, isMarkerLine l = false) → dlMark.isPrefixOf line = true →
      handshake (pre ++ line :: rest) = none)
    ∧ (∀ (pre : List (List Char)) (line : List Char) (rest : List (List Char)),
      (∀ l ∈ pre, isMarkerLine l = false) → errMark.isPrefixOf line = true →
      handshake (pre ++ line :: rest) = some (line.drop errMark.length))
    ∧ (∀ lines : List (List Char),
      (∀ l ∈ lines, isMarkerLine l = false) → handshake lines = none) := by
  refine ⟨?_, ?_, ?_⟩
  · intro pre line rest hpre hline
    unfold handshake
    rw [stderrScan_skip pre _ hpre, stderrScan_dl line rest hline]
  · intro pre line rest hpre hline
    unfold handshake
    rw [stderrScan_skip pre _ hpre, stderrScan_err line rest hline]
  · intro lines h
    unfold handshake
    rw [stderrScan_clean lines h]

/-- Witness for C3 at concrete stderr traces: a warning line followed by
a `[download]` line resolves to nil; an `ERROR: ` line resolves to the
stripped message; a marker-free trace resolves to nil at end-of-stream. -/
theorem c3_handshake_witness :
    handshake (["warning: slow connection".toList] ++
      "[download] 100.0% of 3MiB".toList :: []) = none
    ∧ handshake (["[youtube] extracting".toList] ++
      "ERROR: disk full".toList :: []) =
        some ("ERROR: disk full".toList.drop errMark.length)
    ∧ handshake ["[youtube] extracting".toList, "warning: x".toList] = none :=
  ⟨c3_handshake_first_marker.1 _ _ [] (by decide) (by decide),
   c3_handshake_first_marker.2.1 _ _ [] (by decide) (by decide),
   c3_handshake_first_marker.2.2 _ (by decide)⟩

/-- Counterexample to C4: when the handshake resolves on an `ERROR: `
line, the scanning goroutine returns without the trailing drain, so the
remainder of stderr is left unread — stderr is NOT read to completion on
that branch. -/
theorem c4_counterexample :
    (stderrScan ["ERROR: the disk is full".toList,
      "more diagnostics".toList]).2 ≠ [] := by decide

/-- C4 (amended): after the handshake signals via a `[download]` line or
via end-of-stream, the scanner leaves no stderr lines unread (the
trailing discard-copy drains the pipe); after it signals via an
`ERROR: ` line, it leaves the whole remainder of stderr unread. -/
theorem c4_drain_branches :
    (∀ (pre : List (List Char)) (line : List Char) (rest : List (List Char)),
      (∀ l ∈ pre, isMarkerLine l = false) → dlMark.isPrefixOf line = true →
      (stderrScan (pre ++ line :: rest)).2 = [])
    ∧ (∀ lines : List (List Char),
      (∀ l ∈ lines, isMarkerLine l = false) → (stderrScan lines).2 = [])
    ∧ (∀ (pre : List (List Char)) (line : List Char) (rest : List (List Char)),
      (∀ l ∈ pre, isMarkerLine l = false) → errMark.isPrefixOf line = true →
      (stderrScan (pre ++ line :: rest)).2 = rest) := by
  refine ⟨?_, ?_, ?_⟩
  · intro pre line rest hpre hline
    rw [stderrScan_skip pre _ hpre, stderrScan_dl line rest hline]
  · intro lines h
    rw [stderrScan_clean lines h]
  · intro pre line rest hpre hline
    rw [stderrScan_skip pre _ hpre, stderrScan_err line rest hline]

/-- Witness for C4 (amended) at concrete stderr traces, one per branch. -/
theorem c4_drain_witness :
    (stderrScan (["[info] resolving".toList] ++
      "[download] 12.0% of 3MiB".toList :: ["[download] 99%".toList])).2 = []
    ∧ (stderrScan ["[info] resolving".toList, "warning: y".toList]).2 = []
    ∧ (stderrScan (["[info] resolving".toList] ++
      "ERROR: no formats".toList :: ["left-behind line".toList])).2 =
        ["left-behind line".toList] :=
  ⟨c4_drain_branches.1 _ _ _ (by decide) (by decide),
   c4_drain_branches.2.1 _ (by decide),
   c4_drain_branches.2.2 _ _ _ (by decide) (by decide)⟩

/-- C1: the source of `DownloadLatestFromGithub` indexes `r[0]` with no
length check, so an empty release listing is a runtime index-out-of-range
panic, not the explicit "no releases" error the claim requires. -/
theorem c1_empty_listing_panics :
    DownloadLatestFromGithub (.ok []) (fun _ _ => .ok ())
      "/usr/local/bin/yt-dlp" = .panics := rfl

/-- Counterexample to C2: on an empty target, `GetVideoInfo` performs no
validation at all — it invokes the external process (with target
`"ytsearch:"`) and, if the tool succeeds, even returns metadata rather
than any validation error. -/
theorem c2_counterexample :
    (GetVideoInfo runGood "/usr/local/bin/yt-dlp" "").2 ≠ []
    ∧ (GetVideoInfo runGood "/usr/local/bin/yt-dlp" "").1 =
        .ok ⟨"x", "t", "u", 42⟩ := by
  constructor
  · decide
  · rfl

/-- C2 (amended): `Execute` and `DumpStdout` fail immediately with the
"empty url" validation error and invoke no process on an empty target;
`GetVideoInfo` has no emptiness validation and always performs exactly
one invocation, whose target is `"ytsearch:" ++ query`. -/
theorem c2_empty_target_validation :
    ∀ (run : Invocation → ProcOut) (bPath query : String)
      (args : List String),
      Execute run bPath "" args = (.error "empty url", [])
      ∧ DumpStdout run bPath "" args = (("", some "empty url"), [])
      ∧ (GetVideoInfo run bPath query).2 =
          [⟨bPath, ["ytsearch:" ++ query, "-s", "-O",
            "%(.\x7bid,title,thumbnail,duration\x7d)#j"]⟩] := by
  intro run bPath query args
  refine ⟨?_, ?_, rfl⟩
  · simp [Execute]
  · simp [DumpStdout]

/-- Counterexample to C5: `DumpStdout` uses `append(args, url)`, putting
the target LAST, while `Execute` uses `slices.Insert(args, 0, url)`,
putting it first — with one extra argument the two vectors differ and
the first element of `DumpStdout`'s vector is the extra argument, not
the target. -/
theorem c5_counterexample :
    (DumpStdout runGood "/usr/local/bin/yt-dlp" "https://v.example/w" ["-f"]).2
      ≠ (Execute runGood "/usr/local/bin/yt-dlp" "https://v.example/w" ["-f"]).2
    ∧ (DumpStdout runGood "/usr/local/bin/yt-dlp" "https://v.example/w"
        ["-f"]).2 = [⟨"/usr/local/bin/yt-dlp", ["-f", "https://v.example/w"]⟩] := by
  constructor
  · decide
  · decide

/-- C5 (amended): for every non-empty target, `DumpStdout` builds the
argument vector as the extra arguments followed by the target (target
last), not `Execute`'s target-first vector; the two coincide — and the
first element equals the target — exactly when the extra-argument list
is empty. -/
theorem c5_dump_target_last :
    ∀ (run : Invocation → ProcOut) (bPath url : String) (args : List String),
      url ≠ "" →
      (DumpStdout run bPath url args).2 = [⟨bPath, args ++ [url]⟩]
      ∧ (DumpStdout run bPath url []).2 = (Execute run bPath url []).2
      ∧ ([] ++ [url]).head? = some url := by
  intro run bPath url args h
  refine ⟨?_, ?_, rfl⟩
  · simp [DumpStdout, h]
  · simp [DumpStdout, Execute, h]

/-- Witness for C5 (amended) at a concrete non-empty target. -/
theorem c5_dump_target_last_witness :
    ("https://v.example/w" : String) ≠ ""
    ∧ ((DumpStdout runGood "/usr/local/bin/yt-dlp" "https://v.example/w"
          ["-q"]).2 = [⟨"/usr/local/bin/yt-dlp", ["-q"] ++ ["https://v.example/w"]⟩]
       ∧ (DumpStdout runGood "/usr/local/bin/yt-dlp" "https://v.example/w"
            []).2 = (Execute runGood "/usr/local/bin/yt-dlp"
            "https://v.example/w" []).2
       ∧ ([] ++ ["https://v.example/w"]).head? = some "https://v.example/w") :=
  ⟨by decide,
   c5_dump_target_last runGood "/usr/local/bin/yt-dlp" "https://v.example/w"
     ["-q"] (by decide)⟩

/-- C6: for every target (the empty string included) and extra-argument
list, the streaming launch attempts exactly one invocation whose
argument vector is the target, then the extra arguments, then the
output-to-stdout flag `-o -` and the line-buffered-progress flag
`--newline`; no emptiness validation guards this path. -/
theorem c6_stream_args :
    ∀ (start : Invocation → Option String) (stderrLines : List (List Char))
      (bPath url : String) (args : List String),
      (ExecuteStream start stderrLines bPath url args).attempted
        = [⟨bPath, url :: (args ++ ["-o", "-", "--newline"])⟩] :=
  fun _ _ _ _ _ => rfl

/-- C7: whenever the process starts (the start oracle reports no
error), the stdout read end handed back by `ExecuteStream` is the
non-nil pipe reader on BOTH handshake branches, and the error value is
exactly the handshake verdict — failure is detectable only through the
error, never through nilness of the stream. -/
theorem c7_stream_reader_nonnil :
    ∀ (start : Invocation → Option String) (stderrLines : List (List Char))
      (bPath url : String) (args : List String),
      start ⟨bPath, streamArgs url args⟩ = none →
      (ExecuteStream start stderrLines bPath url args).stdoutRd = some ()
      ∧ (ExecuteStream start stderrLines bPath url args).err
          = (handshake stderrLines).map StreamErr.toolError := by
  intro start stderrLines bPath url args h
  constructor
  · simp [ExecuteStream, h]
  · simp [ExecuteStream, h]

/-- Witness for C7 on the failed handshake branch: the stream is still
`some ()` while the error carries the tool's message. -/
theorem c7_stream_reader_nonnil_witness :
    startOk ⟨"/usr/local/bin/yt-dlp", streamArgs "https://v.example/w" []⟩ = none
    ∧ ((ExecuteStream startOk ["ERROR: no video formats".toList]
          "/usr/local/bin/yt-dlp" "https://v.example/w" []).stdoutRd = some ()
       ∧ (ExecuteStream startOk ["ERROR: no video formats".toList]
            "/usr/local/bin/yt-dlp" "https://v.example/w" []).err
          = (handshake ["ERROR: no video formats".toList]).map
              StreamErr.toolError) :=
  ⟨rfl,
   c7_stream_reader_nonnil startOk ["ERROR: no video formats".toList]
     "/usr/local/bin/yt-dlp" "https://v.example/w" [] rfl⟩

/-- C8: the mode passed to chmod is the stat-read mode OR `0111`, so it
keeps every pre-existing permission bit (AND with the old mode gives the
old mode back) and contains the execute bit for owner, group, and other
(AND with `0111` gives `0111`). -/
theorem c8_exec_permission :
    ∀ m : Nat,
      setExecPermission m = m ||| 0o111
      ∧ m &&& setExecPermission m = m
      ∧ setExecPermission m &&& 0o111 = 0o111 := by
  intro m
  refine ⟨rfl, ?_, ?_⟩
  · apply Nat.eq_of_testBit_eq
    intro i
    simp only [setExecPermission, Nat.testBit_and, Nat.testBit_or]
    cases m.testBit i <;> simp
  · apply Nat.eq_of_testBit_eq
    intro i
    simp only [setExecPermission, Nat.testBit_and, Nat.testBit_or]
    cases Nat.testBit 0o111 i <;> simp

theorem applyFields_neg_duration :
    ∀ (kvs : List (String × Json)) (vi : YTDLPVideoInfo) (n : Int),
      n < 0 → ("duration", Json.num n) ∈ kvs →
      ∃ e, applyFields kvs vi = .error e := by
  intro kvs
  induction kvs with
  | nil => intro vi n _ hmem; cases hmem
  | cons p rest ih =>
    intro vi n hn hmem
    rcases List.mem_cons.mp hmem with heq | hmem2
    · obtain ⟨k, v⟩ := p
      obtain ⟨hk, hv⟩ := Prod.mk.injEq .. ▸ heq.symm
      subst hk hv
      have hset : setField (lowerKey "duration") (Json.num n) vi
          = if n < 0 then
              Except.error
                "cannot unmarshal negative number into field duration of type uint"
            else Except.ok { vi with Duration := n.toNat } := rfl
      rw [if_pos hn] at hset
      exact ⟨"cannot unmarshal negative number into field duration of type uint",
        by simp only [applyFields, hset]⟩
    · obtain ⟨k, v⟩ := p
      cases hsf : setField (lowerKey k) v vi with
      | error e => exact ⟨e, by simp only [applyFields, hsf]⟩
      | ok vi2 =>
        obtain ⟨e, he⟩ := ih vi2 n hn hmem2
        exact ⟨e, by simp only [applyFields, hsf]; exact he⟩

/-- C9: a metadata value returned by `GetVideoInfo` always has a
non-negative duration (the Go field is `uint`), and a JSON object whose
`duration` member is a negative number fails to unmarshal instead of
yielding a metadata value. -/
theorem c9_duration_nonneg :
    (∀ (run : Invocation → ProcOut) (bPath query : String)
       (vi : YTDLPVideoInfo),
       (GetVideoInfo run bPath query).1 = .ok vi → 0 ≤ (vi.Duration : Int))
    ∧ (∀ (kvs : List (String × Json)) (n : Int), n < 0 →
         ("duration", Json.num n) ∈ kvs →
         ∃ e, unmarshalVideoInfo (Json.obj kvs) = .error e) := by
  constructor
  · intro _ _ _ vi _
    exact Int.natCast_nonneg vi.Duration
  · intro kvs n hn hmem
    exact applyFields_neg_duration kvs ⟨"", "", "", 0⟩ n hn hmem

/-- Witness for C9: a successful fetch yields duration 42 ≥ 0, and the
object `\x7b"duration": -3\x7d` fails to unmarshal. -/
theorem c9_duration_nonneg_witness :
    ((GetVideoInfo runGood "/usr/local/bin/yt-dlp" "cats").1
        = .ok ⟨"x", "t", "u", 42⟩)
    ∧ (0 ≤ (((⟨"x", "t", "u", 42⟩ : YTDLPVideoInfo)).Duration : Int))
    ∧ ((-3 : Int) < 0
       ∧ ("duration", Json.num (-3)) ∈ [("duration", Json.num (-3))]
       ∧ ∃ e, unmarshalVideoInfo
           (Json.obj [("duration", Json.num (-3))]) = .error e) :=
  ⟨rfl,
   c9_duration_nonneg.1 runGood "/usr/local/bin/yt-dlp" "cats"
     ⟨"x", "t", "u", 42⟩ rfl,
   by decide,
   List.Mem.head _,
   c9_duration_nonneg.2 [("duration", Json.num (-3))] (-3) (by decide)
     (List.Mem.head _)⟩

/-- C10: decoding reads only the first JSON value of the captured
output — the result on a stream `v :: rest` equals the result on `[v]`
for every trailing content `rest`, and when the first value unmarshals
successfully the whole decode succeeds with that value's fields. -/
theorem c10_decode_first_value :
    ∀ (v : Json) (rest : List Json) (vi : YTDLPVideoInfo),
      decodeVideoInfo (v :: rest) = decodeVideoInfo [v]
      ∧ (unmarshalVideoInfo v = .ok vi → decodeVideoInfo (v :: rest) = .ok vi) :=
  fun _ _ _ => ⟨rfl, fun h => h⟩

/-- Witness for C10: a well-formed object followed by trailing JSON
content decodes to that object's fields. -/
theorem c10_decode_first_value_witness :
    (unmarshalVideoInfo vGood = .ok ⟨"x", "t", "u", 42⟩)
    ∧ decodeVideoInfo (vGood :: [Json.num 7, Json.str "trailing"])
        = .ok ⟨"x", "t", "u", 42⟩ :=
  ⟨rfl,
   (c10_decode_first_value vGood [Json.num 7, Json.str "trailing"]
     ⟨"x", "t", "u", 42⟩).2 rfl⟩
